import Mathlib

/-!
Verification development for the hangouts_to_sms repository.

The Python modules `hangouts_to_sms/hangouts.py` and
`hangouts_to_sms/sms_backup_and_restore.py` are shallowly embedded below:
dictionaries read by the code become Lean structures holding exactly the
keys the code accesses (optional keys become `Option` fields), fallible
code returns `Except PyErr`, and the XML element tree is a plain inductive
tree of tag, attribute list and children.  The theorems at the end of the
file settle the behavioural claims about the pipeline.
-/

namespace HangoutsToSms

/-- Python exception values raised by the embedded functions.  Each
constructor corresponds to a Python exception class appearing in the
source (`TypeError` arises from the misuse of `str.join`, see
`generate_error_text`). -/
inductive PyErr where
  | valueError (msg : String)
  | notImplementedError (msg : String)
  | typeError (msg : String)
  | keyError (key : String)
  | indexError (msg : String)
  | httpError (code : Nat)
deriving Repr, DecidableEq

/-- Does the character list `hay` start with `pat`? -/
def charsStartWith : List Char → List Char → Bool
  | [], _ => true
  | _ :: _, [] => false
  | p :: ps, h :: hs => p == h && charsStartWith ps hs

/-- Does `pat` occur as a contiguous run inside `hay`? -/
def charsContain (hay pat : List Char) : Bool :=
  match hay with
  | [] => pat.isEmpty
  | _ :: hs => charsStartWith pat hay || charsContain hs pat

/-- Python substring containment `sub in s` (an empty `sub` is contained in
everything, matching Python; the source only tests the delimiter `":: "`
and the word `"image"`). -/
def strContains (s sub : String) : Bool :=
  charsContain s.toList sub.toList

/-- Constant `MESSAGE_ERROR_IMAGE_NOT_FOUND` from hangouts.py. -/
def MESSAGE_ERROR_IMAGE_NOT_FOUND : String := "IMAGE NOT FOUND"

/-- Constant `MESSAGE_ERROR_TYPES` from hangouts.py. -/
def MESSAGE_ERROR_TYPES : List String := [MESSAGE_ERROR_IMAGE_NOT_FOUND]

/-- Constant `MESSAGE_ERROR_DELIM` from hangouts.py. -/
def MESSAGE_ERROR_DELIM : String := ":: "

/-- Function `generate_error_text` from hangouts.py.  After the two guard
checks the source executes
`MESSAGE_ERROR_DELIM.join('ERROR', error_type, error_msg)`;
Python's `str.join` takes exactly one iterable argument, so this call
raises `TypeError: join() takes exactly one argument (3 given)` instead of
producing the joined string. -/
def generate_error_text (error_type error_msg : String) :
    Except PyErr String :=
  if ¬ MESSAGE_ERROR_TYPES.contains error_type then
    .error (.valueError ("error_type " ++ error_type ++ " not in list"))
  else if strContains error_msg MESSAGE_ERROR_DELIM then
    .error (.valueError "error_msg can not contain delimiter")
  else
    .error (.typeError "join() takes exactly one argument (3 given)")

/-- One content part of a parsed event: in the source a part is a Python
dict with a `content_type` key and, depending on the kind, a `text` or a
`data` (base64 image payload) key. -/
structure Part where
  content_type : String
  text : Option String := none
  data : Option String := none
deriving Repr, DecidableEq

/-- Terminal outcome of the HTTP fetch inside `retrieve_image_data`: either
a response whose body was read (its base64 encoding abstracted into a
string), or an `HTTPError` with a status code.  The 500 retry loop is
collapsed into its terminal outcome: a 500 here stands for a 500 that
exhausted the backoff budget. -/
inductive HttpOutcome where
  | success (contentType : String) (bodyB64 : String)
  | httpError (code : Nat)
deriving Repr, DecidableEq

/-- Function `retrieve_image_data` from hangouts.py, modelled as a pure
function of the terminal HTTP outcome of fetching `url`.  The on-disk
cache and the sleep/backoff are I/O and do not affect which value is
returned for a given terminal outcome.  On a 404 the source builds a
text/plain part whose `text` is `generate_error_text(...)` applied to the
image-not-found marker and the url; on success it validates the content
type against the three image types and returns a part carrying the base64
data. -/
def retrieve_image_data (url : String) (_event_id : String)
    (outcome : HttpOutcome) : Except PyErr Part :=
  match outcome with
  | .httpError 404 => do
      let t ← generate_error_text MESSAGE_ERROR_IMAGE_NOT_FOUND url
      pure { content_type := "text/plain", text := some t }
  | .httpError code => .error (.httpError code)
  | .success ct body =>
      if ["image/jpeg", "image/png", "image/gif"].contains ct then
        pure { content_type := ct, data := some body }
      else
        .error (.valueError ("unknown content type " ++ ct))

/-- One entry of `conversation.participant_data` with the keys the source
reads: `participant_type`, `id.gaia_id`, `fallback_name`, and the optional
`phone_number` object (whose `e164` field is the only one accessed). -/
structure ParticipantData where
  participant_type : String
  gaia_id : String
  fallback_name : String
  phone_number : Option String := none
deriving Repr, DecidableEq

/-- The nested `conversation.conversation` object with the fields the
source reads.  `validate_keys` in the source checks the dict has exactly
the enumerated key set; a Lean structure carries exactly its declared
fields, so that check holds by construction and is not re-modelled.
`self_gaia_id` is `self_conversation_state.self_read_state.participant_id.gaia_id`. -/
structure RawConvoInner where
  id : String
  type : String
  self_gaia_id : String
  participant_data : List ParticipantData
deriving Repr, DecidableEq

/-- A resolved participant record `{gaia_id, phone_number}` as built by
`parsed_hangouts_conversation_meta`. -/
structure ResolvedParticipant where
  gaia_id : String
  phone_number : String
deriving Repr, DecidableEq

/-- The dictionary returned by `parsed_hangouts_conversation_meta`. -/
structure ConversationMeta where
  conversation_id : String
  conversation_type : String
  events_count : Nat
  user : ResolvedParticipant
  participants : List ResolvedParticipant
  participants_count : Nat
deriving Repr, DecidableEq

/-- One step of the `for participant in convo['participant_data']` loop of
`parsed_hangouts_conversation_meta`: the state is the `user` found so far
and the accumulated `participants` list. -/
def participantStep (user_gaia_id : String)
    (st : Option ResolvedParticipant × List ResolvedParticipant)
    (participant : ParticipantData) :
    Except PyErr (Option ResolvedParticipant × List ResolvedParticipant) :=
  let (user, participants) := st
  let participant_type := participant.participant_type
  let gaia_id := participant.gaia_id
  if gaia_id = user_gaia_id then
    pure (some ⟨gaia_id, participant.fallback_name⟩, participants)
  else if participant_type = "GAIA" then
    let phone_number :=
      match participant.phone_number with
      | none => ""
      | some e164 => e164
    pure (user, participants ++ [⟨gaia_id, phone_number⟩])
  else if participant_type = "OFF_NETWORK_PHONE" then
    match participant.phone_number with
    | none => .error (.keyError "phone_number")
    | some e164 => pure (user, participants ++ [⟨gaia_id, e164⟩])
  else if participant_type = "UNKNOWN_PHONE_NUMBER" then
    pure (user, participants)
  else if participant_type = "MALFORMED_PHONE_NUMBER" then
    pure (user, participants ++ [⟨gaia_id, participant.fallback_name⟩])
  else
    .error (.notImplementedError
      ("unknown participant type " ++ participant_type))

/-- Function `parsed_hangouts_conversation_meta` from hangouts.py, taking
the inner conversation object and the length of the sibling `events` list
(the only thing the source reads from the rest of the record).  Note the
source guard
`if conversation_type == 'STICKY_ONE_TO_ONE' and len(participants) != 1`
compares the already-normalised `conversation_type` (one of
`one_to_one` / `group`) against the raw value, so the guard is preserved
here exactly as written and can never fire. -/
def parsed_hangouts_conversation_meta (convo : RawConvoInner)
    (events_count : Nat) : Except PyErr ConversationMeta := do
  let conversation_type ←
    if convo.type = "STICKY_ONE_TO_ONE" then pure "one_to_one"
    else if convo.type = "GROUP" then pure "group"
    else .error (.valueError ("unknown conversation type " ++ convo.type))
  let user_gaia_id := convo.self_gaia_id
  let (user?, participants) ←
    convo.participant_data.foldlM (participantStep user_gaia_id) (none, [])
  let user ←
    match user? with
    | none => .error (.valueError "Wait! Where is the user?")
    | some u => pure u
  if conversation_type = "STICKY_ONE_TO_ONE" ∧ participants.length ≠ 1 then
    .error (.valueError "Should be a 1-1")
  else
    pure {
      conversation_id := convo.id
      conversation_type := conversation_type
      events_count := events_count
      user := user
      participants := participants
      participants_count := participants.length
    }

/-- One entry of `chat_message.message_content.segment` with the keys the
source reads: `type`, and the optional `text` (read with
`segment.get('text', '')`). -/
structure Segment where
  type : String
  text : Option String := none
deriving Repr, DecidableEq

/-- One entry of `chat_message.message_content.attachment`.
`embed_item_type` is `attachment['embed_item']['type']` (a list of type
tags); `plus_photo_url` is `attachment['embed_item']['plus_photo']['url']`
when the `plus_photo` key is present. -/
structure Attachment where
  embed_item_type : List String
  plus_photo_url : Option String := none
deriving Repr, DecidableEq

/-- One entry of the `chat_message.annotation` list (the name is shortened
here; the source key is `annotation`).  The entry has keys `type` and
`value`; only `value` is read. -/
structure Annot where
  value : String
deriving Repr, DecidableEq

/-- One raw event with the fields `parse_hangouts_event` reads, the nested
paths flattened: `conversation_id` is `event['conversation_id']['id']`,
`sender_gaia_id` is `event['sender_id']['gaia_id']`, `timestamp` is
`int(event['timestamp'])` (microseconds since the epoch), `user_gaia_id`
is `event['self_event_state']['user_id']['gaia_id']`, `segment` is
`chat_message.message_content.segment` (absent vs present empty list is
significant), `attachment` is `message_content.get('attachment', [])` and
`annot` is `chat_message.get('annotation', [])` with the defaults already
applied.  `validate_keys` holds by construction as for conversations. -/
structure RawEvent where
  conversation_id : String
  sender_gaia_id : String
  timestamp : Int
  user_gaia_id : String
  event_id : String
  event_type : String
  segment : Option (List Segment) := none
  attachment : List Attachment := []
  annot : List Annot := []
deriving Repr, DecidableEq

/-- The dictionary returned by `parse_hangouts_event`. -/
structure ParsedEvent where
  conversation_id : String
  sender_gaia_id : String
  timestamp : Int
  user_gaia_id : String
  event_id : String
  parts : List Part
deriving Repr, DecidableEq

/-- One step of the `for segment in segments` loop of
`parse_hangouts_event`, accumulating the reconstructed `text`. -/
def segmentStep (text : String) (segment : Segment) : Except PyErr String :=
  let segment_type := segment.type
  let segment_text := segment.text.getD ""
  if segment_type = "LINE_BREAK" then
    pure (text ++ "\n")
  else if segment_type = "TEXT" then
    pure (text ++ segment_text)
  else if segment_type = "LINK" then
    pure (text ++ " " ++ segment_text ++ " ")
  else
    .error (.valueError ("unknown segment type " ++ segment_type))

/-- The segment block of `parse_hangouts_event`: an absent segment list
contributes no part; a present list (empty included) is folded into
exactly one text/plain part. -/
def parse_segments_part : Option (List Segment) → Except PyErr (List Part)
  | none => pure []
  | some segments => do
      let text ← segments.foldlM segmentStep ""
      pure [{ content_type := "text/plain", text := some text }]

/-- The attachment block of `parse_hangouts_event`: photo attachments
append the retrieved image part, place attachments are ignored, audio
attachments are checked against the VOICEMAIL event type and ignored, any
other embed item type is an error, and more than one attachment is an
error. -/
def parse_attachment_parts (fetch : String → HttpOutcome)
    (event_id event_type : String) (parts0 : List Part) :
    List Attachment → Except PyErr (List Part)
  | [] => pure parts0
  | [attachment] =>
      let t := attachment.embed_item_type
      if t = ["PLUS_PHOTO"] then
        match attachment.plus_photo_url with
        | none => .error (.keyError "plus_photo")
        | some url => do
            let part ← retrieve_image_data url event_id (fetch url)
            pure (parts0 ++ [part])
      else if t = ["PLACE_V2", "THING_V2", "THING"] then
        pure parts0
      else if t = ["PLUS_AUDIO_V2"] then
        if event_type ≠ "VOICEMAIL" then
          .error (.valueError
            ("Unknown event type for PLUS_AUDIO_V2 called " ++ event_type))
        else
          pure parts0
      else
        .error (.notImplementedError "You need to handle embed item type")
  | attachments =>
      .error (.notImplementedError
        ("Determine handling of " ++ toString attachments.length
          ++ " attachments"))

/-- The annotation block of `parse_hangouts_event`: more than one entry is
an error, a single entry must carry the empty string value. -/
def check_annot : List Annot → Except PyErr Unit
  | [] => pure ()
  | [a] =>
      if a.value ≠ "" then
        .error (.notImplementedError "non-empty annotation value")
      else
        pure ()
  | anns =>
      .error (.notImplementedError
        ("Determine handling of " ++ toString anns.length ++ " annotations"))

/-- Function `parse_hangouts_event` from hangouts.py.  `fetch` supplies the
terminal HTTP outcome for a given url, standing for the network access
performed by `retrieve_image_data`; everything else is the pure logic of
the source, split into the three blocks above in source order. -/
def parse_hangouts_event (fetch : String → HttpOutcome) (event : RawEvent) :
    Except PyErr ParsedEvent := do
  let event_id := event.event_id
  let event_type := event.event_type
  let parts0 ← parse_segments_part event.segment
  let parts1 ← parse_attachment_parts fetch event_id event_type parts0
    event.attachment
  let _ ← check_annot event.annot
  pure {
    conversation_id := event.conversation_id
    sender_gaia_id := event.sender_gaia_id
    timestamp := event.timestamp
    user_gaia_id := event.user_gaia_id
    event_id := event_id
    parts := parts1
  }

/-- An xml.etree element: a tag, an attribute dict (insertion-ordered, as
Python dicts are) and a list of child elements. -/
inductive XmlElement where
  | mk (tag : String) (attrib : List (String × String))
      (children : List XmlElement)
deriving Repr

/-- Tag of an element. -/
def XmlElement.tag : XmlElement → String
  | .mk t _ _ => t

/-- Attribute dict of an element. -/
def XmlElement.attrib : XmlElement → List (String × String)
  | .mk _ a _ => a

/-- Children of an element. -/
def XmlElement.children : XmlElement → List XmlElement
  | .mk _ _ c => c

@[simp] theorem XmlElement.tag_mk (t : String) (a : List (String × String))
    (c : List XmlElement) : (XmlElement.mk t a c).tag = t := rfl

@[simp] theorem XmlElement.attrib_mk (t : String)
    (a : List (String × String)) (c : List XmlElement) :
    (XmlElement.mk t a c).attrib = a := rfl

@[simp] theorem XmlElement.children_mk (t : String)
    (a : List (String × String)) (c : List XmlElement) :
    (XmlElement.mk t a c).children = c := rfl

/-- Python `dict.update`: existing keys keep their position and get the new
value, keys new to the dict are appended in the order of `upd`. -/
def dictUpdate (d upd : List (String × String)) : List (String × String) :=
  (d.map fun kv =>
    match upd.find? (fun kv2 => kv2.1 == kv.1) with
    | some kv2 => (kv.1, kv2.2)
    | none => kv)
  ++ upd.filter (fun kv2 => ¬ d.any (fun kv => kv.1 == kv2.1))

/-- Per-character translation used by `xml_escape_text`:
`xml.sax.saxutils.escape` with the additional entity for the newline.  The
replacement strings introduce no characters that are themselves replaced,
so the sequential `str.replace` calls of the library equal this
character-wise map. -/
def xml_escape_char (c : Char) : String :=
  if c = '&' then "&amp;"
  else if c = '<' then "&lt;"
  else if c = '>' then "&gt;"
  else if c = '\n' then "&#10;"
  else String.singleton c

/-- Function `xml_escape_text` from sms_backup_and_restore.py. -/
def xml_escape_text (text : String) : String :=
  String.join (text.toList.map xml_escape_char)

/-- The fixed smil text used for image parts. -/
def SMIL_IMAGE_TEXT : String :=
  "<smil xmlns=\"http://www.w3.org/2001/SMIL20/Language\"><head><layout/></head><body><par dur=\"8000ms\"><img src=\"image\"/></par></body></smil>"

/-- The fixed smil text used for text parts. -/
def SMIL_TEXT_TEXT : String :=
  "<smil xmlns=\"http://www.w3.org/2001/SMIL20/Language\"><head><layout/></head><body></body></smil>"

/-- The sms `date_sent` sentinel
`str(int(datetime.datetime(2000, 1, 1).timestamp() * 1000))`; the source
value depends on the local timezone, fixed here to the UTC value.  No
claim depends on it. -/
def SMS_DATE_SENT : String := "946684800000"

/-- The addr element the emitter builds for one conversation participant:
address type 137 (From) when the participant is the message sender, 151
(To) otherwise, charset fixed to 3. -/
def expectedAddr (sender_gaia_id : String)
    (participant : ResolvedParticipant) : XmlElement :=
  .mk "addr"
    [("address", participant.phone_number),
     ("type", if participant.gaia_id = sender_gaia_id then "137" else "151"),
     ("charset", "3")] []

/-- Body of the `for i, parsed_part in enumerate(parsed_hangouts_event['parts'])`
loop of `transform_parsed_hangouts_event_to_sms_backup_and_restore`: build
the two-part `parts` element (fixed smil descriptor plus the one real
content part) and one `mms` element from it.  The `element_mms` /
`element_addrs` templates are deep-copied per iteration in the source;
values here are immutable so the sharing is harmless. -/
def transform_mms_part (element_mms_attrib : List (String × String))
    (element_addrs : XmlElement) (parsed_part : Part) :
    Except PyErr XmlElement :=
  let content_type := parsed_part.content_type
  if strContains content_type "image" then
    match parsed_part.data with
    | none => .error (.keyError "data")
    | some data =>
      let element_base_part : XmlElement :=
        .mk "part"
          [("seq", "-1"), ("ct", "application/smil"), ("name", "null"),
           ("chset", "null"), ("cd", "null"), ("fn", "null"),
           ("cid", "<smil>"), ("cl", "smil.xml"), ("ctt_s", "null"),
           ("ctt_t", "null"), ("text", SMIL_IMAGE_TEXT)] []
      let element_part : XmlElement :=
        .mk "part"
          [("seq", "0"), ("chset", "null"), ("ct", content_type),
           ("cl", "image"), ("data", data)] []
      let element_parts : XmlElement :=
        .mk "parts" [] [element_base_part, element_part]
      pure (.mk "mms"
        (dictUpdate element_mms_attrib
          [("m_size", toString data.length), ("m_type", "128")])
        [element_parts, element_addrs])
  else if content_type = "text/plain" then
    match parsed_part.text with
    | none => .error (.keyError "text")
    | some raw =>
      let text := xml_escape_text raw
      let element_base_part : XmlElement :=
        .mk "part"
          [("seq", "-1"), ("ct", "application/smil"), ("name", "null"),
           ("chset", "null"), ("cd", "null"), ("fn", "null"),
           ("cid", "<smil>"), ("cl", "smil.xml"), ("ctt_s", "null"),
           ("ctt_t", "null"), ("text", SMIL_TEXT_TEXT)] []
      let element_part : XmlElement :=
        .mk "part"
          [("chset", "106"), ("ct", "text/plain"), ("cl", "text"),
           ("text", text)] []
      let element_parts : XmlElement :=
        .mk "parts" [] [element_base_part, element_part]
      pure (.mk "mms"
        (dictUpdate element_mms_attrib
          [("m_size", toString text.utf8ByteSize), ("m_type", "151")])
        [element_parts, element_addrs])
  else
    .error (.notImplementedError ("Unknown content type " ++ content_type))

/-- The part loop itself, accumulating `messages` and stopping at the
first part whose content type is neither image-like nor text/plain. -/
def mms_messages_loop (element_mms_attrib : List (String × String))
    (element_addrs : XmlElement) (messages : List XmlElement) :
    List Part → Except PyErr (List XmlElement)
  | [] => pure messages
  | parsed_part :: rest => do
      let mms ← transform_mms_part element_mms_attrib element_addrs parsed_part
      mms_messages_loop element_mms_attrib element_addrs
        (messages ++ [mms]) rest

/-- Function `transform_parsed_hangouts_event_to_sms_backup_and_restore`
from sms_backup_and_restore.py.  The `date` attribute value is the
microsecond timestamp carried through `datetime.fromtimestamp(us / 1e6)`
and back via `int(ts.timestamp() * 1000)`; that float round-trip is
modelled as integer microsecond-to-millisecond division (no claim depends
on the float rounding).  Note `is_sms` tests
`conversation_meta['participants_count'] == 1`, not the conversation
type. -/
def transform_parsed_hangouts_event_to_sms_backup_and_restore
    (parsed_hangouts_event : ParsedEvent)
    (conversation_meta : ConversationMeta) :
    Except PyErr (List XmlElement) :=
  let date := toString (parsed_hangouts_event.timestamp / 1000)
  let sender_gaia_id := parsed_hangouts_event.sender_gaia_id
  let sent_type :=
    if sender_gaia_id = parsed_hangouts_event.user_gaia_id then "2" else "1"
  if parsed_hangouts_event.parts.length = 0 then
    pure []
  else
    let is_sms :=
      decide (parsed_hangouts_event.parts.length = 1)
      && decide ((parsed_hangouts_event.parts.head?.map Part.content_type)
          = some "text/plain")
      && decide (conversation_meta.participants_count = 1)
    if is_sms then
      match conversation_meta.participants with
      | [] => .error (.indexError "participants")
      | p0 :: _ => do
          let body ←
            match parsed_hangouts_event.parts with
            | [] => Except.error (PyErr.indexError "parts")
            | part :: _ =>
                match part.text with
                | none => Except.error (PyErr.keyError "text")
                | some t => pure (xml_escape_text t)
          pure [.mk "sms"
            [("protocol", "0"), ("address", p0.phone_number),
             ("date", date), ("type", sent_type), ("body", body),
             ("date_sent", SMS_DATE_SENT),
             ("service_center", "earthastronaut"), ("subject", "null"),
             ("toa", "null"), ("sc_toa", "null"), ("read", "1"),
             ("status", "-1"), ("locked", "0"), ("sub_id", "-1")] []]
    else
      let element_mms_attrib :=
        [("date", date),
         ("ct_t", "application/vnd.wap.multipart.related"),
         ("msg_box", sent_type), ("rr", "null"), ("sub", "null"),
         ("read_status", "null"),
         ("address", conversation_meta.user.phone_number),
         ("m_id", "null"), ("m_size", "null"), ("m_type", "null")]
      let element_addrs : XmlElement :=
        .mk "addrs" []
          (conversation_meta.participants.map (expectedAddr sender_gaia_id))
      mms_messages_loop element_mms_attrib element_addrs []
        parsed_hangouts_event.parts

/-- One raw conversation record: the nested
`conversation['conversation']['conversation']` object and the sibling
`events` list. -/
structure RawConversation where
  conversation : RawConvoInner
  events : List RawEvent

/-- The top-level Takeout document: the `conversations` list. -/
structure GoogleHangoutsData where
  conversations : List RawConversation

/-- Python truthiness of `message_count and message_counter > message_count`:
`None` and `0` are falsy, so no limit is in effect for either. -/
def limitTruthy (message_count : Option Nat) (message_counter : Nat) : Bool :=
  match message_count with
  | none => false
  | some m => decide (m ≠ 0) && decide (message_counter > m)

/-- The `for event in conversation['events']` loop of
`transform_hangouts_conversation_to_sms_backup_and_restore`: parse, emit,
extend the accumulated messages, bump the counter by one per event, and
break out of the loop once the limit test fires. -/
def convoLoop (fetch : String → HttpOutcome)
    (conversation_meta : ConversationMeta)
    (conversation_messages : List XmlElement) (message_counter : Nat)
    (message_count : Option Nat) :
    List RawEvent → Except PyErr (List XmlElement)
  | [] => pure conversation_messages
  | event :: rest => do
      let parsed_event ← parse_hangouts_event fetch event
      let messages ← transform_parsed_hangouts_event_to_sms_backup_and_restore
        parsed_event conversation_meta
      let conversation_messages2 := conversation_messages ++ messages
      let message_counter2 := message_counter + 1
      if limitTruthy message_count message_counter2 then
        pure conversation_messages2
      else
        convoLoop fetch conversation_meta conversation_messages2
          message_counter2 message_count rest

/-- Function `transform_hangouts_conversation_to_sms_backup_and_restore`
from sms_backup_and_restore.py (the source signature defaults are
`message_counter=0, message_count=None`). -/
def transform_hangouts_conversation_to_sms_backup_and_restore
    (fetch : String → HttpOutcome) (conversation : RawConversation)
    (message_counter : Nat) (message_count : Option Nat) :
    Except PyErr (List XmlElement) := do
  let conversation_meta ← parsed_hangouts_conversation_meta
    conversation.conversation conversation.events.length
  convoLoop fetch conversation_meta [] message_counter message_count
    conversation.events

/-- The `for conversation in conversations` loop of
`transform_hangouts_data`.  The source passes `message_counter` into the
per-conversation call but never receives an updated value back (Python
integers are immutable and the callee does not return its counter), so
`message_counter` is unchanged across iterations here, exactly as in the
source. -/
def dataLoop (fetch : String → HttpOutcome) (message_counter : Nat)
    (message_count : Option Nat) (acc : List XmlElement) :
    List RawConversation → Except PyErr (List XmlElement)
  | [] => pure acc
  | conversation :: rest => do
      let messages ← transform_hangouts_conversation_to_sms_backup_and_restore
        fetch conversation message_counter message_count
      let acc2 := acc ++ messages
      if limitTruthy message_count message_counter then
        pure acc2
      else
        dataLoop fetch message_counter message_count acc2 rest

/-- Function `transform_hangouts_data` from sms_backup_and_restore.py.
`backup_set` (a fresh uuid in the source) and `backup_date` (the wall
clock) are nondeterministic inputs, passed in as parameters.  The source
initialises the `count` attribute to `-1` and overwrites it at the end
with `str(len(root))`; the final value is used here directly. -/
def transform_hangouts_data (fetch : String → HttpOutcome)
    (backup_set backup_date : String)
    (google_hangouts_data : GoogleHangoutsData)
    (message_count : Option Nat) : Except PyErr XmlElement := do
  let conversations := google_hangouts_data.conversations
  let message_counter := 0
  let messages ← dataLoop fetch message_counter message_count []
    conversations
  pure (.mk "smses"
    [("count", toString messages.length), ("backup_set", backup_set),
     ("backup_date", backup_date)]
    messages)

/-! ### Derived notions used by the theorems -/

/-- The sms-classification condition of the emitter, as a proposition:
exactly one part, whose content type is text/plain, and
`participants_count == 1`.  This mirrors the `is_sms` boolean of
`transform_parsed_hangouts_event_to_sms_backup_and_restore`. -/
def SmsShaped (parsed : ParsedEvent) (meta : ConversationMeta) : Prop :=
  parsed.parts.length = 1
  ∧ parsed.parts.head?.map Part.content_type = some "text/plain"
  ∧ meta.participants_count = 1

instance (parsed : ParsedEvent) (meta : ConversationMeta) :
    Decidable (SmsShaped parsed meta) := by
  unfold SmsShaped; infer_instance

/-- The address records of an mms element: the children of its `addrs`
child elements. -/
def mmsAddrs (m : XmlElement) : List XmlElement :=
  ((m.children.filter (fun c => c.tag == "addrs")).map XmlElement.children).flatten

/-- The part records of an mms element: the children of its `parts` child
elements. -/
def mmsParts (m : XmlElement) : List XmlElement :=
  ((m.children.filter (fun c => c.tag == "parts")).map XmlElement.children).flatten

/-- Number of `From` (type 137) address records of an mms element. -/
def fromAddrCount (m : XmlElement) : Nat :=
  ((mmsAddrs m).filter (fun a => a.attrib.lookup "type" == some "137")).length

/-- Modelled from the spec for claim C6: the contribution of one segment to
the reconstructed text (a newline for a line break, the text verbatim for
plain text, the display text padded with one leading and one trailing
space for a link). -/
def segmentContribution (segment : Segment) : String :=
  if segment.type = "LINE_BREAK" then "\n"
  else if segment.type = "TEXT" then segment.text.getD ""
  else " " ++ segment.text.getD "" ++ " "

/-- A fetch oracle used by concrete witnesses whose events carry no photo
attachment (the oracle is never consulted there). -/
def fetch404 : String → HttpOutcome := fun _ => .httpError 404

/-! ### Generic reduction lemmas for the Except monad -/

@[simp] theorem exceptBind_ok {α β ε : Type} (a : α) (f : α → Except ε β) :
    (Except.ok a >>= f) = f a := rfl

@[simp] theorem exceptBind_error {α β ε : Type} (e : ε)
    (f : α → Except ε β) :
    ((Except.error e : Except ε α) >>= f) = Except.error e := rfl

@[simp] theorem exceptPure_eq_ok {α ε : Type} (a : α) :
    (pure a : Except ε α) = Except.ok a := rfl

/-! ### Concrete inputs used by counterexamples and witnesses -/

/-- A sticky-one-to-one conversation record with two resolvable non-owner
participants (malformed input per the spec invariant). -/
def c2_convo : RawConvoInner :=
  { id := "c2", type := "STICKY_ONE_TO_ONE", self_gaia_id := "G-user",
    participant_data :=
      [⟨"GAIA", "G-user", "me", none⟩,
       ⟨"OFF_NETWORK_PHONE", "G-a", "alice", some "+15551230001"⟩,
       ⟨"OFF_NETWORK_PHONE", "G-b", "bob", some "+15551230002"⟩] }

/-- An event holding one plain text segment, used by the driver inputs. -/
def c4_event (eid : String) : RawEvent :=
  { conversation_id := "c4", sender_gaia_id := "G-user", timestamp := 0,
    user_gaia_id := "G-user", event_id := eid,
    event_type := "REGULAR_CHAT_MESSAGE",
    segment := some [⟨"TEXT", some "hi"⟩], attachment := [], annot := [] }

/-- A one-to-one conversation whose events each emit exactly one sms. -/
def c4_inner : RawConvoInner :=
  { id := "c4", type := "STICKY_ONE_TO_ONE", self_gaia_id := "G-user",
    participant_data :=
      [⟨"GAIA", "G-user", "me", none⟩,
       ⟨"OFF_NETWORK_PHONE", "G-a", "alice", some "+15551230001"⟩] }

/-- The conversation above with two events. -/
def c4_conv2 : RawConversation :=
  { conversation := c4_inner, events := [c4_event "e1", c4_event "e2"] }

/-- The conversation above with three events. -/
def c4_conv3 : RawConversation :=
  { conversation := c4_inner,
    events := [c4_event "e1", c4_event "e2", c4_event "e3"] }

/-! ### Claims C2, C3, C4 -/

/-- C2: the source guard for the one-to-one participant-count invariant
compares the normalised conversation type (`one_to_one`) against the raw
value `STICKY_ONE_TO_ONE`, so it can never fire: a sticky-one-to-one
conversation with two resolvable non-owner participants is returned as a
`ConversationMeta` with `participants_count = 2` instead of raising the
intended validation error. -/
theorem C2_one_to_one_guard_dead :
    (parsed_hangouts_conversation_meta c2_convo 0).map
      (fun meta => (meta.conversation_type, meta.participants_count))
      = .ok ("one_to_one", 2) := rfl

/-- C3: a photo fetch ending in HTTP 404 does not produce the documented
diagnostic part: the source builds its body with
`MESSAGE_ERROR_DELIM.join('ERROR', error_type, error_msg)`, and str.join
with three positional arguments raises `TypeError`, so the 404 branch of
`retrieve_image_data` raises instead of returning. -/
theorem C3_404_raises_type_error :
    retrieve_image_data "https://lh3.googleusercontent.com/photo.jpg"
      "event1" (.httpError 404)
      = .error (.typeError "join() takes exactly one argument (3 given)")
      := rfl

/-- C4: the message-count limit is not applied as specified.  With limit 1
and two conversations of two single-sms events each, all four messages are
emitted (the per-conversation counter is never propagated back to the
driver, whose own limit check therefore never fires); with limit 1 and one
conversation of three events, only two messages are emitted (the
per-conversation loop breaks in the middle of the conversation instead of
completing it). -/
theorem C4_limit_not_as_specified :
    (transform_hangouts_data fetch404 "bs" "bd" ⟨[c4_conv2, c4_conv2]⟩
        (some 1)).map (fun root => root.children.length) = .ok 4
    ∧ (transform_hangouts_data fetch404 "bs" "bd" ⟨[c4_conv3]⟩
        (some 1)).map (fun root => root.children.length) = .ok 2 :=
  ⟨rfl, rfl⟩

/-! ### Claim C6: segment reconstruction -/

/-- Modelled from the spec for claim C6: concatenation of the per-segment
contributions, in segment order. -/
def concatContributions : List Segment → String
  | [] => ""
  | s :: rest => segmentContribution s ++ concatContributions rest

/-- The segment fold of the source equals, on recognised segment types,
the in-order concatenation of the per-segment contributions. -/
theorem segment_fold_ok (segments : List Segment)
    (hty : ∀ s ∈ segments,
      s.type = "TEXT" ∨ s.type = "LINE_BREAK" ∨ s.type = "LINK") :
    ∀ acc : String, segments.foldlM segmentStep acc
      = .ok (acc ++ concatContributions segments) := by
  induction segments with
  | nil => intro acc; simp [concatContributions, String.append_empty]
  | cons s rest ih =>
      intro acc
      have hs := hty s (by simp)
      have hrest := fun x hx => hty x (List.mem_cons_of_mem s hx)
      rcases hs with h | h | h <;>
        simp [List.foldlM_cons, segmentStep, h, ih hrest,
          concatContributions, segmentContribution, String.append_assoc]

/-- C6: for every event carrying a segment list of recognised segment
kinds (and nothing else), parsing succeeds and builds exactly one
text/plain part whose text is the in-order concatenation of a newline per
LINE_BREAK segment, the verbatim text per TEXT segment, and the display
text padded with one leading and one trailing space per LINK segment. -/
theorem C6_segments_single_text_part (fetch : String → HttpOutcome)
    (event : RawEvent) (segments : List Segment)
    (hseg : event.segment = some segments)
    (hty : ∀ s ∈ segments,
      s.type = "TEXT" ∨ s.type = "LINE_BREAK" ∨ s.type = "LINK")
    (hatt : event.attachment = [])
    (hann : event.annot = []) :
    parse_hangouts_event fetch event = .ok
      { conversation_id := event.conversation_id
        sender_gaia_id := event.sender_gaia_id
        timestamp := event.timestamp
        user_gaia_id := event.user_gaia_id
        event_id := event.event_id
        parts := [⟨"text/plain", some (concatContributions segments), none⟩] }
      := by
  simp [parse_hangouts_event, parse_segments_part, hseg, hatt, hann,
    segment_fold_ok segments hty "", String.empty_append,
    parse_attachment_parts, check_annot]

/-- The concrete event of the spec example `[TEXT "a", LINE_BREAK,
TEXT "b"]`. -/
def c6_event_ab : RawEvent :=
  { conversation_id := "c6", sender_gaia_id := "G-a", timestamp := 0,
    user_gaia_id := "G-user", event_id := "e-ab", event_type := "SMS",
    segment := some [⟨"TEXT", some "a"⟩, ⟨"LINE_BREAK", none⟩,
      ⟨"TEXT", some "b"⟩],
    attachment := [], annot := [] }

/-- The concrete event of the spec example `[LINK "x"]`. -/
def c6_event_link : RawEvent :=
  { conversation_id := "c6", sender_gaia_id := "G-a", timestamp := 0,
    user_gaia_id := "G-user", event_id := "e-link", event_type := "SMS",
    segment := some [⟨"LINK", some "x"⟩],
    attachment := [], annot := [] }

/-- Witness for C6 on the two spec examples: the reconstruction yields the
text `a\nb` and the text `  x  ` (one space either side). -/
theorem C6_witness :
    parse_hangouts_event fetch404 c6_event_ab = .ok
      { conversation_id := "c6", sender_gaia_id := "G-a", timestamp := 0,
        user_gaia_id := "G-user", event_id := "e-ab",
        parts := [{ content_type := "text/plain", text := some "a\nb" }] }
    ∧ parse_hangouts_event fetch404 c6_event_link = .ok
      { conversation_id := "c6", sender_gaia_id := "G-a", timestamp := 0,
        user_gaia_id := "G-user", event_id := "e-link",
        parts := [{ content_type := "text/plain", text := some " x " }] } :=
  ⟨C6_segments_single_text_part fetch404 c6_event_ab _ rfl (by decide)
      rfl rfl,
   C6_segments_single_text_part fetch404 c6_event_link _ rfl (by decide)
      rfl rfl⟩

/-! ### Claims C8 and C10: parse failures on unknown taxonomy values -/

/-- A segment list containing a segment of unrecognised type makes the
segment fold fail, whatever the accumulator. -/
theorem segment_fold_error :
    ∀ (segments : List Segment) (acc : String),
    (∃ s ∈ segments,
      s.type ≠ "TEXT" ∧ s.type ≠ "LINE_BREAK" ∧ s.type ≠ "LINK") →
    ∃ e, segments.foldlM segmentStep acc = .error e := by
  intro segments
  induction segments with
  | nil => intro acc h; simp at h
  | cons s rest ih =>
      intro acc h
      rcases h with ⟨x, hx, hx1, hx2, hx3⟩
      rcases List.mem_cons.mp hx with rfl | hxr
      · exact ⟨.valueError ("unknown segment type " ++ x.type),
          by simp [List.foldlM_cons, segmentStep, hx1, hx2, hx3]⟩
      · cases hstep : segmentStep acc s with
        | error e => exact ⟨e, by simp [List.foldlM_cons, hstep]⟩
        | ok acc2 =>
            obtain ⟨e, he⟩ := ih acc2 ⟨x, hxr, hx1, hx2, hx3⟩
            exact ⟨e, by simp [List.foldlM_cons, hstep, he]⟩

/-- C8: parsing fails (the input is never silently skipped or defaulted)
whenever the segment list contains a segment whose type is not one of
TEXT, LINE_BREAK, LINK, and whenever the single attachment carries an
embed item type that is none of the recognised photo, place and audio
values. -/
theorem C8_unknown_taxonomy_fails (fetch : String → HttpOutcome)
    (event : RawEvent)
    (h : (∃ segments, event.segment = some segments ∧
            ∃ s ∈ segments,
              s.type ≠ "TEXT" ∧ s.type ≠ "LINE_BREAK" ∧ s.type ≠ "LINK")
       ∨ (∃ a, event.attachment = [a]
            ∧ a.embed_item_type ≠ ["PLUS_PHOTO"]
            ∧ a.embed_item_type ≠ ["PLACE_V2", "THING_V2", "THING"]
            ∧ a.embed_item_type ≠ ["PLUS_AUDIO_V2"])) :
    ∃ e, parse_hangouts_event fetch event = .error e := by
  rcases h with ⟨segments, hseg, hbad⟩ | ⟨a, hatt, h1, h2, h3⟩
  · obtain ⟨e, he⟩ := segment_fold_error segments "" hbad
    exact ⟨e, by simp [parse_hangouts_event, parse_segments_part, hseg, he]⟩
  · cases hp0 : parse_segments_part event.segment with
    | error e => exact ⟨e, by simp [parse_hangouts_event, hp0]⟩
    | ok parts0 =>
        refine ⟨.notImplementedError "You need to handle embed item type", ?_⟩
        simp [parse_hangouts_event, hp0, hatt, parse_attachment_parts,
          h1, h2, h3]

/-- C10: parsing fails on every event whose chat message carries two or
more annotation entries, whatever their values. -/
theorem C10_two_annotations_fail (fetch : String → HttpOutcome)
    (event : RawEvent) (h : 2 ≤ event.annot.length) :
    ∃ e, parse_hangouts_event fetch event = .error e := by
  cases hp0 : parse_segments_part event.segment with
  | error e => exact ⟨e, by simp [parse_hangouts_event, hp0]⟩
  | ok parts0 =>
    cases hp1 : parse_attachment_parts fetch event.event_id event.event_type
        parts0 event.attachment with
    | error e => exact ⟨e, by simp [parse_hangouts_event, hp0, hp1]⟩
    | ok parts1 =>
        cases hann : event.annot with
        | nil => rw [hann] at h; simp at h
        | cons a tail =>
            cases tail with
            | nil => rw [hann] at h; simp at h
            | cons b anns =>
                refine ⟨.notImplementedError ("Determine handling of "
                  ++ toString (anns.length + 2) ++ " annotations"), ?_⟩
                simp [parse_hangouts_event, hp0, hp1, hann, check_annot]

/-- The event used by the C8 witness: one unrecognised MENTION segment. -/
def c8_event_seg : RawEvent :=
  { conversation_id := "c8", sender_gaia_id := "G-a", timestamp := 0,
    user_gaia_id := "G-user", event_id := "e-seg", event_type := "SMS",
    segment := some [⟨"MENTION", some "x"⟩], attachment := [], annot := [] }

/-- Witness for C8: the MENTION-segment event fails to parse. -/
theorem C8_witness :
    ∃ e, parse_hangouts_event fetch404 c8_event_seg = .error e :=
  C8_unknown_taxonomy_fails fetch404 c8_event_seg
    (Or.inl ⟨[⟨"MENTION", some "x"⟩], rfl, by decide⟩)

/-- The event used by the C10 witness: two empty-string annotation
entries. -/
def c10_event : RawEvent :=
  { conversation_id := "c10", sender_gaia_id := "G-a", timestamp := 0,
    user_gaia_id := "G-user", event_id := "e-ann", event_type := "SMS",
    segment := some [⟨"TEXT", some "hi"⟩], attachment := [],
    annot := [⟨""⟩, ⟨""⟩] }

/-- Witness for C10: the two-empty-annotations event fails to parse. -/
theorem C10_witness :
    ∃ e, parse_hangouts_event fetch404 c10_event = .error e :=
  C10_two_annotations_fail fetch404 c10_event (by decide)

/-! ### Claim C9: GAIA participants without a phone number -/

/-- A successful participant step either keeps the accumulated list or
appends exactly one resolved participant to it. -/
theorem participantStep_ok_shape (user_gaia_id : String)
    (user : Option ResolvedParticipant)
    (participants : List ResolvedParticipant) (p : ParticipantData)
    (st2 : Option ResolvedParticipant × List ResolvedParticipant)
    (h : participantStep user_gaia_id (user, participants) p = .ok st2) :
    st2.2 = participants ∨ ∃ y, st2.2 = participants ++ [y] := by
  unfold participantStep at h
  simp only [exceptPure_eq_ok] at h
  repeat' split at h
  all_goals cases h
  all_goals first
    | (left; rfl)
    | (right; exact ⟨_, rfl⟩)

/-- Membership in the accumulated participant list survives a successful
participant step. -/
theorem participantStep_ok_mono (user_gaia_id : String)
    (user : Option ResolvedParticipant)
    (participants : List ResolvedParticipant) (p : ParticipantData)
    (st2 : Option ResolvedParticipant × List ResolvedParticipant)
    (h : participantStep user_gaia_id (user, participants) p = .ok st2) :
    ∀ x ∈ participants, x ∈ st2.2 := by
  intro x hx
  rcases participantStep_ok_shape user_gaia_id user participants p st2 h
    with h2 | ⟨y, h2⟩
  · rw [h2]; exact hx
  · rw [h2]; exact List.mem_append_left _ hx

/-- The step on a non-owner GAIA participant without a phone number
appends that participant with the empty display address. -/
theorem participantStep_gaia_none (user_gaia_id : String)
    (user : Option ResolvedParticipant)
    (participants : List ResolvedParticipant) (p : ParticipantData)
    (st2 : Option ResolvedParticipant × List ResolvedParticipant)
    (h1 : p.participant_type = "GAIA") (h2 : p.phone_number = none)
    (h3 : p.gaia_id ≠ user_gaia_id)
    (h : participantStep user_gaia_id (user, participants) p = .ok st2) :
    st2.2 = participants ++ [⟨p.gaia_id, ""⟩] := by
  unfold participantStep at h
  dsimp only at h
  rw [if_neg h3, if_pos h1, h2] at h
  simp only [exceptPure_eq_ok, Except.ok.injEq] at h
  rw [← h]

/-- Membership in the accumulated participant list survives the whole
participant fold. -/
theorem participant_fold_mono (user_gaia_id : String) :
    ∀ (l : List ParticipantData)
      (st res : Option ResolvedParticipant × List ResolvedParticipant),
    l.foldlM (participantStep user_gaia_id) st = .ok res →
    ∀ x ∈ st.2, x ∈ res.2 := by
  intro l
  induction l with
  | nil =>
      intro st res h x hx
      rw [List.foldlM_nil] at h
      simp only [exceptPure_eq_ok, Except.ok.injEq] at h
      rw [← h]; exact hx
  | cons q rest ih =>
      intro st res h x hx
      rw [List.foldlM_cons] at h
      cases hstep : participantStep user_gaia_id st q with
      | error e => rw [hstep] at h; simp at h
      | ok st2 =>
          rw [hstep] at h; simp only [exceptBind_ok] at h
          obtain ⟨u, ps⟩ := st
          exact ih st2 res h x
            (participantStep_ok_mono user_gaia_id u ps q st2 hstep x hx)

/-- Every non-owner GAIA participant without a phone number ends up in the
participant list produced by a successful fold, carrying the empty display
address. -/
theorem participant_fold_gaia_mem (user_gaia_id : String) :
    ∀ (l : List ParticipantData)
      (st res : Option ResolvedParticipant × List ResolvedParticipant),
    l.foldlM (participantStep user_gaia_id) st = .ok res →
    ∀ p ∈ l, p.participant_type = "GAIA" → p.phone_number = none →
      p.gaia_id ≠ user_gaia_id →
      (⟨p.gaia_id, ""⟩ : ResolvedParticipant) ∈ res.2 := by
  intro l
  induction l with
  | nil => intro st res h p hp; simp at hp
  | cons q rest ih =>
      intro st res h p hp h1 h2 h3
      rw [List.foldlM_cons] at h
      cases hstep : participantStep user_gaia_id st q with
      | error e => rw [hstep] at h; simp at h
      | ok st2 =>
          rw [hstep] at h; simp only [exceptBind_ok] at h
          rcases List.mem_cons.mp hp with rfl | hpr
          · obtain ⟨u, ps⟩ := st
            have hshape := participantStep_gaia_none user_gaia_id u ps p st2
              h1 h2 h3 hstep
            have hmem : (⟨p.gaia_id, ""⟩ : ResolvedParticipant) ∈ st2.2 := by
              rw [hshape]; exact List.mem_append_right _ (by simp)
            exact participant_fold_mono user_gaia_id rest st2 res h _ hmem
          · exact ih st2 res h p hpr h1 h2 h3

/-- C9: a non-owner participant of type GAIA whose record carries no phone
number neither aborts resolution nor is skipped: whenever resolution
succeeds it appears in the participant list with the empty string as
display address. -/
theorem C9_gaia_without_phone_included (convo : RawConvoInner)
    (events_count : Nat) (meta : ConversationMeta) (p : ParticipantData)
    (hp : p ∈ convo.participant_data) (h1 : p.participant_type = "GAIA")
    (h2 : p.phone_number = none) (h3 : p.gaia_id ≠ convo.self_gaia_id)
    (h : parsed_hangouts_conversation_meta convo events_count = .ok meta) :
    (⟨p.gaia_id, ""⟩ : ResolvedParticipant) ∈ meta.participants := by
  unfold parsed_hangouts_conversation_meta at h
  by_cases hA : convo.type = "STICKY_ONE_TO_ONE"
  · rw [if_pos hA] at h
    simp only [exceptPure_eq_ok, exceptBind_ok] at h
    cases hfold : convo.participant_data.foldlM
        (participantStep convo.self_gaia_id) (none, []) with
    | error e => rw [hfold] at h; simp at h
    | ok res =>
        rw [hfold] at h; simp only [exceptBind_ok] at h
        obtain ⟨user?, participants⟩ := res
        cases user? with
        | none => simp at h
        | some u =>
            simp only [exceptPure_eq_ok, exceptBind_ok] at h
            rw [if_neg (by simp)] at h
            simp only [exceptPure_eq_ok, Except.ok.injEq] at h
            have hparts : meta.participants = participants := by
              rw [← h]
            rw [hparts]
            exact participant_fold_gaia_mem convo.self_gaia_id
              convo.participant_data (none, []) (some u, participants)
              hfold p hp h1 h2 h3
  · by_cases hB : convo.type = "GROUP"
    · rw [if_neg hA, if_pos hB] at h
      simp only [exceptPure_eq_ok, exceptBind_ok] at h
      cases hfold : convo.participant_data.foldlM
          (participantStep convo.self_gaia_id) (none, []) with
      | error e => rw [hfold] at h; simp at h
      | ok res =>
          rw [hfold] at h; simp only [exceptBind_ok] at h
          obtain ⟨user?, participants⟩ := res
          cases user? with
          | none => simp at h
          | some u =>
              simp only [exceptPure_eq_ok, exceptBind_ok] at h
              rw [if_neg (by simp)] at h
              simp only [exceptPure_eq_ok, Except.ok.injEq] at h
              have hparts : meta.participants = participants := by
                rw [← h]
              rw [hparts]
              exact participant_fold_gaia_mem convo.self_gaia_id
                convo.participant_data (none, []) (some u, participants)
                hfold p hp h1 h2 h3
    · rw [if_neg hA, if_neg hB] at h
      simp at h

/-- The conversation used by the C9 witness: the owner plus one GAIA
participant without a phone number. -/
def c9_convo : RawConvoInner :=
  { id := "c9", type := "GROUP", self_gaia_id := "G-user",
    participant_data :=
      [⟨"GAIA", "G-user", "me", none⟩,
       ⟨"GAIA", "G-b", "bob", none⟩,
       ⟨"OFF_NETWORK_PHONE", "G-a", "alice", some "+15551230001"⟩] }

/-- The meta record resolved from `c9_convo`. -/
def c9_meta : ConversationMeta :=
  { conversation_id := "c9", conversation_type := "group", events_count := 0,
    user := ⟨"G-user", "me"⟩,
    participants := [⟨"G-b", ""⟩, ⟨"G-a", "+15551230001"⟩],
    participants_count := 2 }

/-- Witness for C9: the phoneless GAIA participant of `c9_convo` is
resolved into the participant list with the empty display address. -/
theorem C9_witness :
    (⟨"G-b", ""⟩ : ResolvedParticipant) ∈ c9_meta.participants :=
  C9_gaia_without_phone_included c9_convo 0 c9_meta
    ⟨"GAIA", "G-b", "bob", none⟩ (by decide) rfl rfl (by decide) rfl

/-! ### Shape of the emitted mms elements (claims C1, C5, C7) -/

/-- Every successfully emitted mms element is tagged `mms`, carries the
`parts` element followed by the shared address element as its two
children, and the `parts` element holds exactly the fixed smil descriptor
(first) and one real content part whose content type is the source part's
content type. -/
theorem transform_mms_part_ok_shape (attrib : List (String × String))
    (addrs : XmlElement) (p : Part) (m : XmlElement)
    (h : transform_mms_part attrib addrs p = .ok m) :
    m.tag = "mms" ∧
    ∃ partsEl basePart contentPart : XmlElement,
      m.children = [partsEl, addrs] ∧ partsEl.tag = "parts" ∧
      partsEl.children = [basePart, contentPart] ∧
      basePart.attrib.lookup "ct" = some "application/smil" ∧
      basePart.attrib.lookup "seq" = some "-1" ∧
      contentPart.attrib.lookup "ct" = some p.content_type := by
  unfold transform_mms_part at h
  dsimp only at h
  by_cases himg : strContains p.content_type "image" = true
  · rw [if_pos himg] at h
    cases hd : p.data with
    | none => rw [hd] at h; cases h
    | some data =>
        rw [hd] at h
        simp only [exceptPure_eq_ok, Except.ok.injEq] at h
        subst h
        refine ⟨rfl, _, _, _, rfl, rfl, rfl, ?_, ?_, ?_⟩ <;>
          simp [List.lookup, XmlElement.attrib]
  · rw [if_neg himg] at h
    by_cases hct : p.content_type = "text/plain"
    · rw [if_pos hct] at h
      cases ht : p.text with
      | none => rw [ht] at h; cases h
      | some raw =>
          rw [ht] at h
          simp only [exceptPure_eq_ok, Except.ok.injEq] at h
          subst h
          refine ⟨rfl, _, _, _, rfl, rfl, rfl, ?_, ?_, ?_⟩ <;>
            simp [List.lookup, XmlElement.attrib, hct]
    · rw [if_neg hct] at h; cases h

/-- The part loop, when it succeeds, appends to its accumulator one
emitted element per part, in part order. -/
theorem mms_messages_loop_ok_forall2 (attrib : List (String × String))
    (addrs : XmlElement) :
    ∀ (parts : List Part) (acc msgs : List XmlElement),
    mms_messages_loop attrib addrs acc parts = .ok msgs →
    ∃ newMsgs, msgs = acc ++ newMsgs ∧
      List.Forall₂ (fun p m => transform_mms_part attrib addrs p = .ok m)
        parts newMsgs := by
  intro parts
  induction parts with
  | nil =>
      intro acc msgs h
      unfold mms_messages_loop at h
      simp only [exceptPure_eq_ok, Except.ok.injEq] at h
      exact ⟨[], by rw [← h]; simp, List.Forall₂.nil⟩
  | cons p rest ih =>
      intro acc msgs h
      unfold mms_messages_loop at h
      cases hstep : transform_mms_part attrib addrs p with
      | error e => rw [hstep] at h; simp at h
      | ok m =>
          rw [hstep] at h; simp only [exceptBind_ok] at h
          obtain ⟨newMsgs, hmsgs, hfa⟩ := ih (acc ++ [m]) msgs h
          exact ⟨m :: newMsgs, by rw [hmsgs]; simp,
            List.Forall₂.cons hstep hfa⟩

/-- Elements of the right list of a `Forall₂` are related to some element
of the left list. -/
theorem forall2_exists_left {α β : Type} {R : α → β → Prop} :
    ∀ {l1 : List α} {l2 : List β}, List.Forall₂ R l1 l2 →
    ∀ b ∈ l2, ∃ a ∈ l1, R a b := by
  intro l1 l2 hfa
  induction hfa with
  | nil => intro b hb; simp at hb
  | cons hR hfa ih =>
      intro b hb
      rcases List.mem_cons.mp hb with rfl | hbr
      · exact ⟨_, by simp, hR⟩
      · obtain ⟨a, ha, hr⟩ := ih b hbr
        exact ⟨a, List.mem_cons_of_mem _ ha, hr⟩

/-- Mapping both sides of a `Forall₂` with functions that agree on related
pairs yields equal lists. -/
theorem forall2_map_eq {α β γ : Type} {R : α → β → Prop} {f : β → γ}
    {g : α → γ} (hfg : ∀ a b, R a b → f b = g a) :
    ∀ {l1 : List α} {l2 : List β}, List.Forall₂ R l1 l2 →
    l2.map f = l1.map g := by
  intro l1 l2 hfa
  induction hfa with
  | nil => rfl
  | cons hR hfa ih => simp [hfg _ _ hR, ih]

/-- A non-sms-shaped event with at least one part goes down the mms path:
the output is exactly the part loop's output against the shared base
attributes and the shared address element built from the conversation's
participants. -/
theorem transform_mms_path (parsed : ParsedEvent) (meta : ConversationMeta)
    (msgs : List XmlElement)
    (hne : parsed.parts ≠ [])
    (hnotsms : ¬ SmsShaped parsed meta)
    (h : transform_parsed_hangouts_event_to_sms_backup_and_restore
      parsed meta = .ok msgs) :
    ∃ attrib addrs,
      addrs = XmlElement.mk "addrs" []
        (meta.participants.map (expectedAddr parsed.sender_gaia_id)) ∧
      List.Forall₂ (fun p m => transform_mms_part attrib addrs p = .ok m)
        parsed.parts msgs := by
  unfold transform_parsed_hangouts_event_to_sms_backup_and_restore at h
  rw [if_neg (by simpa using hne)] at h
  have hsms : ¬ ((decide (parsed.parts.length = 1)
      && decide ((parsed.parts.head?.map Part.content_type)
        = some "text/plain")
      && decide (meta.participants_count = 1)) = true) := by
    simp only [Bool.and_eq_true, decide_eq_true_eq]
    intro hand
    exact hnotsms ⟨hand.1.1, hand.1.2, hand.2⟩
  rw [if_neg hsms] at h
  obtain ⟨newMsgs, hmsgs, hfa⟩ := mms_messages_loop_ok_forall2 _ _
    parsed.parts [] msgs h
  rw [hmsgs, List.nil_append]
  exact ⟨_, _, rfl, hfa⟩

instance : Inhabited XmlElement := ⟨.mk "" [] []⟩

/-- The emitted addr element is typed 137 exactly when the participant is
the sender. -/
theorem expectedAddr_type_lookup (s : String) (q : ResolvedParticipant) :
    (((expectedAddr s q).attrib.lookup "type") == some "137")
      = (q.gaia_id == s) := by
  by_cases hq : q.gaia_id = s
  · simp [expectedAddr, hq, List.lookup]
  · simp [expectedAddr, hq, List.lookup]

/-! ### Claim C5: sms versus mms classification -/

/-- C5 amended: emission produces a single sms record exactly when the
event is sms-shaped (one part, text/plain, `participants_count = 1` —
regardless of the conversation type); in every other case with at least
one part the output is a nonempty list of mms records only. -/
theorem C5_amended (parsed : ParsedEvent) (meta : ConversationMeta)
    (msgs : List XmlElement)
    (h : transform_parsed_hangouts_event_to_sms_backup_and_restore
      parsed meta = .ok msgs)
    (hne : parsed.parts ≠ []) :
    (SmsShaped parsed meta → msgs.map XmlElement.tag = ["sms"])
    ∧ (¬ SmsShaped parsed meta →
        msgs ≠ [] ∧ ∀ m ∈ msgs, m.tag = "mms") := by
  constructor
  · intro hsms
    obtain ⟨hlen, hct, hcount⟩ := hsms
    unfold transform_parsed_hangouts_event_to_sms_backup_and_restore at h
    rw [if_neg (by simpa using hne)] at h
    rw [if_pos (by simp [hlen, hct, hcount])] at h
    cases hps : meta.participants with
    | nil => rw [hps] at h; cases h
    | cons p0 rest =>
        rw [hps] at h
        obtain ⟨part, hpart⟩ := List.length_eq_one.mp hlen
        rw [hpart] at h
        dsimp only at h
        cases htext : part.text with
        | none => rw [htext] at h; cases h
        | some t =>
            rw [htext] at h
            simp only [exceptBind_ok, exceptPure_eq_ok,
              Except.ok.injEq] at h
            rw [← h]
            rfl
  · intro hnotsms
    obtain ⟨attrib, addrs, haddrs, hfa⟩ :=
      transform_mms_path parsed meta msgs hne hnotsms h
    constructor
    · intro hnil
      subst hnil
      have hlen := List.Forall₂.length_eq hfa
      exact hne (List.length_eq_zero.mp (by simpa using hlen))
    · intro m hm
      obtain ⟨p, hp, hok⟩ := forall2_exists_left hfa m hm
      exact (transform_mms_part_ok_shape attrib addrs p m hok).1

/-- A GROUP conversation record with the owner plus one phone
participant. -/
def c5_convo : RawConvoInner :=
  { id := "c5", type := "GROUP", self_gaia_id := "G-user",
    participant_data :=
      [⟨"GAIA", "G-user", "me", none⟩,
       ⟨"OFF_NETWORK_PHONE", "G-a", "alice", some "+15551230001"⟩] }

/-- The meta record the resolver produces for `c5_convo`: a group
conversation with `participants_count = 1`. -/
def c5_meta : ConversationMeta :=
  { conversation_id := "c5", conversation_type := "group",
    events_count := 1, user := ⟨"G-user", "me"⟩,
    participants := [⟨"G-a", "+15551230001"⟩], participants_count := 1 }

/-- A parsed event with exactly one text part. -/
def c5_event : ParsedEvent :=
  { conversation_id := "c5", sender_gaia_id := "G-user", timestamp := 0,
    user_gaia_id := "G-user", event_id := "e1",
    parts := [⟨"text/plain", some "hi", none⟩] }

/-- C5 counterexample: a Group conversation (as resolved from a raw GROUP
record) with exactly one non-owner participant still yields an sms record
for a single-text-part event, although the claim requires a one-to-one
conversation for the sms classification. -/
theorem C5_counterexample :
    parsed_hangouts_conversation_meta c5_convo 1 = .ok c5_meta
    ∧ c5_meta.conversation_type = "group"
    ∧ (transform_parsed_hangouts_event_to_sms_backup_and_restore
        c5_event c5_meta).map (fun msgs => msgs.map XmlElement.tag)
      = .ok ["sms"] :=
  ⟨rfl, rfl, rfl⟩

/-- Output of the emitter on the sms-shaped C5 input. -/
def c5_msgs : List XmlElement :=
  (transform_parsed_hangouts_event_to_sms_backup_and_restore
    c5_event c5_meta).toOption.getD []

/-- A parsed event with two text parts (not sms-shaped). -/
def c5m_event : ParsedEvent :=
  { conversation_id := "c5", sender_gaia_id := "G-user", timestamp := 0,
    user_gaia_id := "G-user", event_id := "e2",
    parts := [⟨"text/plain", some "one", none⟩,
      ⟨"text/plain", some "two", none⟩] }

/-- Output of the emitter on the two-part C5 input. -/
def c5m_msgs : List XmlElement :=
  (transform_parsed_hangouts_event_to_sms_backup_and_restore
    c5m_event c5_meta).toOption.getD []

/-- Witness for the amended C5 on both sides of the classification. -/
theorem C5_witness :
    c5_msgs.map XmlElement.tag = ["sms"]
    ∧ (c5m_msgs ≠ [] ∧ ∀ m ∈ c5m_msgs, m.tag = "mms") :=
  ⟨(C5_amended c5_event c5_meta c5_msgs rfl (by decide)).1 (by decide),
   (C5_amended c5m_event c5_meta c5m_msgs rfl (by decide)).2 (by decide)⟩

/-! ### Claim C1: the mms address list -/

/-- A group conversation metadata record with two non-owner
participants. -/
def c1_meta : ConversationMeta :=
  { conversation_id := "c1", conversation_type := "group",
    events_count := 1, user := ⟨"G-user", "me"⟩,
    participants := [⟨"G-a", "+15551230001"⟩, ⟨"G-b", "+15551230002"⟩],
    participants_count := 2 }

/-- A parsed event sent by the archive owner, with one text part. -/
def c1_event : ParsedEvent :=
  { conversation_id := "c1", sender_gaia_id := "G-user", timestamp := 0,
    user_gaia_id := "G-user", event_id := "e1",
    parts := [⟨"text/plain", some "hi", none⟩] }

/-- C1 counterexample: for an owner-sent message in a group conversation
with two participants, the emitted mms record carries an address list of
length 2 (`participant_count`, not `participant_count + 1`) and no From
entry at all (not exactly one): the loop iterates over the non-owner
participants only, and the owner-sender matches none of them. -/
theorem C1_counterexample :
    c1_meta.conversation_type = "group" ∧ c1_meta.participants_count = 2
    ∧ (transform_parsed_hangouts_event_to_sms_backup_and_restore
        c1_event c1_meta).map
        (fun msgs => msgs.map
          (fun m => (m.tag, (mmsAddrs m).length, fromAddrCount m)))
      = .ok [("mms", 2, 0)] :=
  ⟨rfl, rfl, rfl⟩

/-- C1 amended: every emitted mms record carries the shared address list
built from the non-owner participants only — one addr per participant, in
order, with role From exactly for participants equal to the sender and To
for everyone else.  Its length is `participant_count` and the number of
From entries is the number of participants whose id is the sender's (0
when the owner is the sender); the owner never appears in the list. -/
theorem C1_amended (parsed : ParsedEvent) (meta : ConversationMeta)
    (msgs : List XmlElement)
    (h : transform_parsed_hangouts_event_to_sms_backup_and_restore
      parsed meta = .ok msgs)
    (hne : parsed.parts ≠ []) (hnotsms : ¬ SmsShaped parsed meta)
    (m : XmlElement) (hm : m ∈ msgs) :
    mmsAddrs m = meta.participants.map (expectedAddr parsed.sender_gaia_id)
    ∧ (mmsAddrs m).length = meta.participants.length
    ∧ fromAddrCount m
        = (meta.participants.filter
            (fun q => q.gaia_id == parsed.sender_gaia_id)).length := by
  obtain ⟨attrib, addrs, haddrs, hfa⟩ :=
    transform_mms_path parsed meta msgs hne hnotsms h
  obtain ⟨p, hp, hok⟩ := forall2_exists_left hfa m hm
  obtain ⟨htag, partsEl, basePart, contentPart, hch, hptag, hpch,
    hb1, hb2, hc1⟩ := transform_mms_part_ok_shape attrib addrs p m hok
  have haddrsEq : mmsAddrs m
      = meta.participants.map (expectedAddr parsed.sender_gaia_id) := by
    unfold mmsAddrs
    rw [hch]
    simp [List.filter, hptag, haddrs]
  refine ⟨haddrsEq, by rw [haddrsEq, List.length_map], ?_⟩
  unfold fromAddrCount
  rw [haddrsEq, List.filter_map, List.length_map]
  congr 1
  apply List.filter_congr
  intro q hq
  simp only [Function.comp]
  exact expectedAddr_type_lookup parsed.sender_gaia_id q

/-- A parsed event received from participant `G-a`, with one text part. -/
def c1w_event : ParsedEvent :=
  { conversation_id := "c1", sender_gaia_id := "G-a", timestamp := 0,
    user_gaia_id := "G-user", event_id := "e2",
    parts := [⟨"text/plain", some "hello", none⟩] }

/-- Output of the emitter on the received C1 input. -/
def c1w_msgs : List XmlElement :=
  (transform_parsed_hangouts_event_to_sms_backup_and_restore
    c1w_event c1_meta).toOption.getD []

/-- The single emitted mms record of the received C1 input. -/
def c1w_m : XmlElement := c1w_msgs.headI

/-- Witness for the amended C1: on a received message the address list has
one entry per participant and exactly one From entry (the sender). -/
theorem C1_witness :
    mmsAddrs c1w_m = c1_meta.participants.map (expectedAddr "G-a")
    ∧ (mmsAddrs c1w_m).length = c1_meta.participants.length
    ∧ fromAddrCount c1w_m
        = (c1_meta.participants.filter
            (fun q => q.gaia_id == "G-a")).length :=
  C1_amended c1w_event c1_meta c1w_msgs rfl (by decide) (by decide)
    c1w_m (List.Mem.head _)

/-! ### Claim C7: one mms record per content part -/

/-- C7: on the mms path, emission returns exactly one mms record per
content part, in part order, and each record's parts element holds the
fixed smil presentation descriptor first followed by exactly one real
content part carrying the source part's content type. -/
theorem C7_one_mms_per_part (parsed : ParsedEvent)
    (meta : ConversationMeta) (msgs : List XmlElement)
    (h : transform_parsed_hangouts_event_to_sms_backup_and_restore
      parsed meta = .ok msgs)
    (hne : parsed.parts ≠ []) (hnotsms : ¬ SmsShaped parsed meta) :
    msgs.length = parsed.parts.length
    ∧ msgs.map (fun m =>
        (m.tag, (mmsParts m).map (fun q => q.attrib.lookup "ct")))
      = parsed.parts.map (fun p =>
        ("mms", [some "application/smil", some p.content_type])) := by
  obtain ⟨attrib, addrs, haddrs, hfa⟩ :=
    transform_mms_path parsed meta msgs hne hnotsms h
  refine ⟨(List.Forall₂.length_eq hfa).symm, ?_⟩
  refine forall2_map_eq ?_ hfa
  intro p m hok
  obtain ⟨htag, partsEl, basePart, contentPart, hch, hptag, hpch,
    hb1, hb2, hc1⟩ := transform_mms_part_ok_shape attrib addrs p m hok
  have hparts : mmsParts m = [basePart, contentPart] := by
    unfold mmsParts
    rw [hch]
    simp [List.filter, hptag, haddrs, hpch]
  rw [htag, hparts]
  simp [hb1, hc1]

/-- A group conversation metadata record used by the C7 witness. -/
def c7_meta : ConversationMeta :=
  { conversation_id := "c7", conversation_type := "group",
    events_count := 1, user := ⟨"G-user", "me"⟩,
    participants := [⟨"G-a", "+15551230001"⟩, ⟨"G-b", "+15551230002"⟩],
    participants_count := 2 }

/-- A parsed event with one text part and one image part. -/
def c7_event : ParsedEvent :=
  { conversation_id := "c7", sender_gaia_id := "G-a", timestamp := 0,
    user_gaia_id := "G-user", event_id := "e7",
    parts := [⟨"text/plain", some "hello", none⟩,
      ⟨"image/jpeg", none, some "QUJD"⟩] }

/-- Output of the emitter on the C7 input. -/
def c7_msgs : List XmlElement :=
  (transform_parsed_hangouts_event_to_sms_backup_and_restore
    c7_event c7_meta).toOption.getD []

/-- Witness for C7: the two-part event yields two mms records whose parts
lists are the smil descriptor followed by the text part and the image
part respectively. -/
theorem C7_witness :
    c7_msgs.length = c7_event.parts.length
    ∧ c7_msgs.map (fun m =>
        (m.tag, (mmsParts m).map (fun q => q.attrib.lookup "ct")))
      = c7_event.parts.map (fun p =>
        ("mms", [some "application/smil", some p.content_type])) :=
  C7_one_mms_per_part c7_event c7_meta c7_msgs rfl (by decide) (by decide)

end HangoutsToSms
